import Mathlib

/-!
Verification of the PrintGuard printer-integration layer: a shallow embedding of
`printguard/utils/printer_utils.py` and
`printguard/utils/printer_services/prusalink.py`, together with theorems about
the claims of the specification.

Python dynamic values are embedded as a JSON-like inductive `JValue`; Python
exceptions as an error type `PyErr` threaded through `Except`; the external
PrusaLinkPy HTTP library as an oracle record `PrusaEnv` giving the outcome of
each HTTP call; the external camera-state store as an `Option CameraState`
argument.
-/

namespace PrintGuard

/-- A JSON-like dynamic value, embedding the Python values that flow through the
client code. Numbers are embedded as rationals (the code performs no arithmetic
on them beyond copying). Objects are association lists in insertion order,
matching Python `dict` iteration order. -/
inductive JValue where
  | null
  | bool (b : Bool)
  | num (q : ℚ)
  | str (s : String)
  | arr (elems : List JValue)
  | obj (fields : List (String × JValue))

/-- Association-list lookup, embedding Python `dict` key lookup. -/
def alookup {α : Type} : List (String × α) → String → Option α
  | [], _ => none
  | (k, v) :: rest, key => if k = key then some v else alookup rest key

/-- Python truthiness of a `JValue`: `None`, `False`, `0`, empty string, empty
list and empty dict are falsy. -/
def jfalsy : JValue → Bool
  | .null => true
  | .bool b => !b
  | .num q => q == 0
  | .str s => s == ""
  | .arr elems => elems.isEmpty
  | .obj fields => fields.isEmpty

/-- `isinstance(value, dict) and 'actual' in value`: the filter used by
`get_printer_temperatures` on each entry of the temperature payload. -/
def isDictWithActual : JValue → Bool
  | .obj fields => (alookup fields "actual").isSome
  | _ => false

/-- The Python exceptions the embedded code can raise. -/
inductive PyErr where
  /-- `requests.HTTPError` from `raise_for_status` on a 4xx/5xx response. -/
  | httpError (status_code : Nat)
  /-- `.json()` called on a body that is not valid JSON. -/
  | jsonDecodeError
  /-- subscripting a dict with a missing key. -/
  | keyError (key : String)
  /-- attribute access (such as `.get`/`.items`) on a value without it. -/
  | attributeError
  /-- `ValueError` from an enum lookup with an unregistered value. -/
  | valueError
  /-- a network-level failure of the underlying HTTP call. -/
  | connectionError
deriving DecidableEq, Repr

/-- An HTTP response as seen through the `requests` library: a status code and
a body; `body = none` embeds a body that is not valid JSON. -/
structure HttpResponse where
  status_code : Nat
  body : Option JValue

/-- `requests.Response.raise_for_status()`: raises `HTTPError` exactly for
status codes in `[400, 600)`. -/
def raise_for_status (r : HttpResponse) : Except PyErr Unit :=
  if 400 ≤ r.status_code ∧ r.status_code < 600 then
    .error (.httpError r.status_code)
  else
    .ok ()

/-- `requests.Response.json()`: the decoded body, or `JSONDecodeError`. -/
def HttpResponse.json (r : HttpResponse) : Except PyErr JValue :=
  match r.body with
  | some v => .ok v
  | none => .error .jsonDecodeError

/-- Python `d[k]` subscripting: `KeyError` when the key is missing, a type
error (embedded as `attributeError`) when `d` is not a dict. -/
def jsub (v : JValue) (k : String) : Except PyErr JValue :=
  match v with
  | .obj fields =>
    match alookup fields k with
    | some x => .ok x
    | none => .error (.keyError k)
  | _ => .error .attributeError

/-- Python `d.get(k, default)`: `AttributeError` when `d` is not a dict. -/
def jgetD (v : JValue) (k : String) (default : JValue) : Except PyErr JValue :=
  match v with
  | .obj fields => .ok ((alookup fields k).getD default)
  | _ => .error .attributeError

/-- Python `d.get(k)` (default `None`). -/
def jget (v : JValue) (k : String) : Except PyErr JValue :=
  jgetD v k .null

/-- Modelled from the spec: the `progress` part of `JobInfoResponse`
(`printguard/models.py` is not under `src/`): completion, print time and time
left, holding whatever values the client code put there (possibly `None`). -/
structure Progress where
  completion : JValue
  printTime : JValue
  printTimeLeft : JValue

/-- Modelled from the spec: `JobInfoResponse` from `printguard/models.py`
(not under `src/`): `{job (arbitrary nested file/job metadata),
progress{completion, printTime, printTimeLeft}, state}`, a plain record of the
values supplied by the client code. -/
structure JobInfoResponse where
  job : JValue
  progress : Progress
  state : JValue

/-- Modelled from the spec: `TemperatureReading` from `printguard/models.py`
(not under `src/`): `{actual, target}` per named component. -/
structure TemperatureReading where
  actual : JValue
  target : JValue

/-- `TemperatureReading(**value)` applied to a dict `value`: the `actual` and
`target` entries of the dict (absent ones become `None`); other keys are
ignored. -/
def TemperatureReading.ofJson (v : JValue) : TemperatureReading :=
  match v with
  | .obj fields =>
    { actual := (alookup fields "actual").getD .null,
      target := (alookup fields "target").getD .null }
  | _ => { actual := .null, target := .null }

/-- Modelled from the spec: `PrinterTemperatures` from `printguard/models.py`
(not under `src/`): nozzle/bed actual+target, each optional. -/
structure PrinterTemperatures where
  nozzle_actual : Option JValue
  nozzle_target : Option JValue
  bed_actual : Option JValue
  bed_target : Option JValue

/-- Modelled from the spec: `PrinterState` from `printguard/models.py`
(not under `src/`): `{jobInfoResponse (optional), temperatureReading}`. -/
structure PrinterState where
  jobInfoResponse : Option JobInfoResponse
  temperatureReading : PrinterTemperatures

/-- The four-key dict returned by `nozzle_and_bed_temps`. -/
structure NozzleBedTemps where
  nozzle_actual : JValue
  nozzle_target : JValue
  bed_actual : JValue
  bed_target : JValue

/-- Modelled from the spec: the `PrinterType` enum from `printguard/models.py`
(not under `src/`); the spec's closed set of printer-type tags, with exactly
two variants (OctoPrint, PrusaLink). -/
inductive PrinterType where
  | OCTOPRINT
  | PRUSALINKPY
deriving DecidableEq, Repr

/-- Modelled from the spec: the value-to-member mapping of the `PrinterType`
string enum. The two member values stand for whatever strings the enum
declares; every other string is unregistered. -/
def PrinterType.ofValue (s : String) : Option PrinterType :=
  if s = "octoprint" then some .OCTOPRINT
  else if s = "prusalink_py" then some .PRUSALINKPY
  else none

/-- Modelled from the spec: the `AlertAction` enum from `printguard/models.py`
(not under `src/`). `CANCEL_PRINT` and `PAUSE_PRINT` are the actions the
suspend path recognises; `DISMISS` stands for the remaining, unrecognised-by-
suspend actions that fall to the default case. -/
inductive AlertAction where
  | CANCEL_PRINT
  | PAUSE_PRINT
  | DISMISS
deriving DecidableEq, Repr

/-- The printer-config dict attached to a camera (structure documented in the
`get_printer_config` docstring): `printer_type`, `base_url`, `api_key`,
`name`, each possibly absent (dict `.get` yields `None`). -/
structure PrinterConfig where
  printer_type : Option String
  base_url : Option String
  api_key : Option String
  name : Option String

/-- The part of a camera's persisted state the printer layer reads. `none` in
`printer_config` embeds both an absent and a falsy config value. -/
structure CameraState where
  printer_config : Option PrinterConfig

/-- The outcome of each HTTP call of the external `PrusaLinkPy` library
client, as an oracle: each method either raises a network-level error or
yields an HTTP response. -/
structure PrusaEnv where
  get_status : Except PyErr HttpResponse
  get_job : Except PyErr HttpResponse
  get_printer : Except PyErr HttpResponse
  stop_print : Except PyErr HttpResponse
  pause_print : Except PyErr HttpResponse

namespace PrusaLinkPyClient

/-- `PrusaLinkPyClient.get_job_info`: fetches `/status` and `/job`, raises on
non-success statuses, and merges the two payloads into a `JobInfoResponse`
(`status.job` supplies progress, `job.job` supplies file details,
`status.printer.state` supplies the state). -/
def get_job_info (env : PrusaEnv) : Except PyErr JobInfoResponse := do
  let status_resp ← env.get_status
  let _ ← raise_for_status status_resp
  let status_data ← status_resp.json
  let job_resp ← env.get_job
  let _ ← raise_for_status job_resp
  let job_data ← job_resp.json
  let progress_info ← jsub status_data "job"
  let job_details ← jgetD job_data "job" (.obj [])
  let completion ← jget progress_info "progress"
  let printTime ← jget progress_info "time_printing"
  let printTimeLeft ← jget progress_info "time_remaining"
  let printerObj ← jgetD status_data "printer" (.obj [])
  let state ← jget printerObj "state"
  return { job := job_details,
           progress := { completion := completion,
                         printTime := printTime,
                         printTimeLeft := printTimeLeft },
           state := state }

/-- `PrusaLinkPyClient.cancel_job`: issues the stop request; HTTP 204 is
success, any other status goes through `raise_for_status`. -/
def cancel_job (env : PrusaEnv) : Except PyErr Unit := do
  let resp ← env.stop_print
  if resp.status_code = 204 then
    return ()
  else
    raise_for_status resp

/-- `PrusaLinkPyClient.pause_job`: issues the pause request; HTTP 204 is
success, any other status goes through `raise_for_status`. -/
def pause_job (env : PrusaEnv) : Except PyErr Unit := do
  let resp ← env.pause_print
  if resp.status_code = 204 then
    return ()
  else
    raise_for_status resp

/-- `PrusaLinkPyClient.get_printer_temperatures`: HTTP 409 yields an empty
mapping; other non-2xx statuses in `[400, 600)` raise; on success the entries
of the payload's `temperature` object whose value is a dict containing
`actual` become `TemperatureReading`s, all other entries are dropped. -/
def get_printer_temperatures (env : PrusaEnv) :
    Except PyErr (List (String × TemperatureReading)) := do
  let resp ← env.get_printer
  if resp.status_code = 409 then
    return []
  else
    let _ ← raise_for_status resp
    let data ← resp.json
    let temp_data ← jgetD data "temperature" (.obj [])
    if jfalsy temp_data then
      return []
    else
      match temp_data with
      | .obj fields =>
        return fields.filterMap (fun kv =>
          if isDictWithActual kv.2 then
            some (kv.1, TemperatureReading.ofJson kv.2)
          else
            none)
      | _ => .error .attributeError

/-- `PrusaLinkPyClient.nozzle_and_bed_temps`: all four values `0.0` when the
temperature mapping is empty; otherwise the `tool0` and `bed` entries, with
`0.0` for a missing entry. -/
def nozzle_and_bed_temps (env : PrusaEnv) : Except PyErr NozzleBedTemps := do
  let temps ← get_printer_temperatures env
  if temps.isEmpty then
    return { nozzle_actual := .num 0, nozzle_target := .num 0,
             bed_actual := .num 0, bed_target := .num 0 }
  else
    let tool0 := alookup temps "tool0"
    let bed := alookup temps "bed"
    return { nozzle_actual := match tool0 with | some t => t.actual | none => .num 0,
             nozzle_target := match tool0 with | some t => t.target | none => .num 0,
             bed_actual := match bed with | some t => t.actual | none => .num 0,
             bed_target := match bed with | some t => t.target | none => .num 0 }

/-- `PrusaLinkPyClient.get_printer_state`: fetches the temperatures (errors
propagate), builds the `PrinterTemperatures` from the `tool0` and `bed`
entries, then tries `get_job_info`, swallowing any exception into an absent
`jobInfoResponse`. -/
def get_printer_state (env : PrusaEnv) : Except PyErr PrinterState := do
  let temperature_readings ← get_printer_temperatures env
  let tool0_temp := alookup temperature_readings "tool0"
  let bed_temp := alookup temperature_readings "bed"
  let printer_temps : PrinterTemperatures :=
    { nozzle_actual := match tool0_temp with | some t => some t.actual | none => none,
      nozzle_target := match tool0_temp with | some t => some t.target | none => none,
      bed_actual := match bed_temp with | some t => some t.actual | none => none,
      bed_target := match bed_temp with | some t => some t.target | none => none }
  let job_info : Option JobInfoResponse :=
    match get_job_info env with
    | .ok j => some j
    | .error _ => none
  return { jobInfoResponse := job_info, temperatureReading := printer_temps }

end PrusaLinkPyClient

/-- A protocol client's observable behaviour, as the outcome of each method
the suspend path calls. The PrusaLink instance is `mkPrusaLinkClient`; the
OctoPrint instance is modelled from the spec (its module is not under `src/`):
per the client contract the methods may fail with transport or data errors, so
an OctoPrint client is any record of outcomes. -/
structure Client where
  get_job_info : Except PyErr JobInfoResponse
  cancel_job : Except PyErr Unit
  pause_job : Except PyErr Unit

/-- The `PrusaLinkPyClient` methods packaged as a `Client`. -/
def mkPrusaLinkClient (env : PrusaEnv) : Client :=
  { get_job_info := PrusaLinkPyClient.get_job_info env,
    cancel_job := PrusaLinkPyClient.cancel_job env,
    pause_job := PrusaLinkPyClient.pause_job env }

/-- The two client classes registered in the factory dictionary. -/
inductive ClientClass where
  | octoPrintClient
  | prusaLinkPyClient
deriving DecidableEq, Repr

/-- `CLIENT_FACTORY`: the dictionary mapping each printer type to its client
class; `.get` on the dictionary yields `none` for an unregistered key. -/
def CLIENT_FACTORY : PrinterType → Option ClientClass
  | .OCTOPRINT => some .octoPrintClient
  | .PRUSALINKPY => some .prusaLinkPyClient

/-- The printer-type resolution both `start_printer_state_polling` and
`suspend_print_job` perform:
`PrinterType(printer_type_str) if printer_type_str else PrinterType.OCTOPRINT`.
A falsy string (`None` or empty) defaults to OctoPrint; an unregistered value
makes the enum lookup raise `ValueError`. -/
def resolve_printer_type : Option String → Except PyErr PrinterType
  | none => .ok .OCTOPRINT
  | some s =>
    if s = "" then .ok .OCTOPRINT
    else
      match PrinterType.ofValue s with
      | some pt => .ok pt
      | none => .error .valueError

/-- `get_printer_config`: the camera state's `printer_config` when the state
exists and the config is set, otherwise `None`. -/
def get_printer_config (camera_state : Option CameraState) : Option PrinterConfig :=
  match camera_state with
  | some cs => cs.printer_config
  | none => none

/-- `job_info.state in ["Printing", "PRINTING"]`: case-sensitive membership of
the job state in the known printing-state strings; a non-string state is in
neither. -/
def isPrintingState : JValue → Bool
  | .str s => s == "Printing" || s == "PRINTING"
  | _ => false

/-- The control commands the suspend path can issue to a client. -/
inductive Cmd where
  | cancel
  | pause
deriving DecidableEq, Repr

/-- `suspend_print_job`, returning the list of commands issued to the client
together with its result (`.error` embeds an uncaught exception). The camera
store is embedded as the camera's state, client construction as the
`clientOf` oracle applied to the class and the config's `base_url`/`api_key`.
`None` config and a missing factory entry return `False`; the enum lookup for
an unregistered type string raises outside the `try`; inside the `try`, a
fetch or action exception returns `False`; a non-printing job state or an
unrecognised action returns `True` without issuing a command. -/
def suspend_print_job (camera_state : Option CameraState)
    (clientOf : ClientClass → Option String → Option String → Client)
    (action : AlertAction) : List Cmd × Except PyErr Bool :=
  match get_printer_config camera_state with
  | none => ([], .ok false)
  | some printer_config =>
    match resolve_printer_type printer_config.printer_type with
    | .error e => ([], .error e)
    | .ok printer_type =>
      match CLIENT_FACTORY printer_type with
      | none => ([], .ok false)
      | some client_class =>
        let client := clientOf client_class printer_config.base_url printer_config.api_key
        match client.get_job_info with
        | .error _ => ([], .ok false)
        | .ok job_info =>
          if isPrintingState job_info.state = false then
            ([], .ok true)
          else
            match action with
            | .CANCEL_PRINT =>
              ([.cancel],
               match client.cancel_job with
               | .ok _ => .ok true
               | .error _ => .ok false)
            | .PAUSE_PRINT =>
              ([.pause],
               match client.pause_job with
               | .ok _ => .ok true
               | .error _ => .ok false)
            | _ => ([], .ok true)

/-- The observable outcome of `start_printer_state_polling`. -/
inductive StartResult where
  /-- no printer config: logged and returned without creating a task. -/
  | noConfig
  /-- factory miss on a registered type: logged and returned without a task. -/
  | unsupportedType
  /-- a polling task was created with this interval (seconds) and client. -/
  | started (interval : ℚ) (client_class : ClientClass)

/-- `start_printer_state_polling`: absent config returns without a task; the
polling interval is the configured rate divided by 1000; the printer type is
resolved as in `resolve_printer_type` (an unregistered type string raises);
a factory miss returns without a task; otherwise a polling task is created. -/
def start_printer_state_polling (camera_state : Option CameraState)
    (pollingRateMs : ℚ) : Except PyErr StartResult :=
  match get_printer_config camera_state with
  | none => .ok .noConfig
  | some camera_printer_config =>
    let printer_polling_rate := pollingRateMs / 1000
    match resolve_printer_type camera_printer_config.printer_type with
    | .error e => .error e
    | .ok printer_type =>
      match CLIENT_FACTORY printer_type with
      | none => .ok .unsupportedType
      | some client_class => .ok (.started printer_polling_rate client_class)

/-- One observable event of an iteration of the polling loop. -/
inductive PollEvent where
  /-- the poll succeeded and `sse_update_printer_state` was called with the
  state (an exception of the push itself is caught by the same handler and
  does not change the control flow, the push being the last statement of the
  `try`). -/
  | pushAttempt (s : PrinterState)
  /-- the poll raised: the exception was caught and logged, no push. -/
  | cycleSkipped

/-- The event an iteration whose poll had outcome `r` produces. -/
def cycleEvent (r : Except PyErr PrinterState) : PollEvent :=
  match r with
  | .ok s => .pushAttempt s
  | .error _ => .cycleSkipped

/-- `poll_printer_state_func`: the polling loop, observed for at most `fuel`
iterations starting at iteration index `i`. `stop_event_set j` tells whether
the stop event is set when checked at the top of iteration `j` (the only point
where it is observed); `poll j` is the outcome of iteration `j`'s
`get_printer_state` call. Each non-stopped iteration appends one event and
continues regardless of a poll exception. -/
def poll_printer_state_func (stop_event_set : Nat → Bool)
    (poll : Nat → Except PyErr PrinterState) : Nat → Nat → List PollEvent
  | 0, _ => []
  | fuel + 1, i =>
    if stop_event_set i then []
    else
      (match poll i with
       | .ok s => PollEvent.pushAttempt s
       | .error _ => PollEvent.cycleSkipped)
        :: poll_printer_state_func stop_event_set poll fuel (i + 1)

/-- `configResolvable camera_state`: the camera either has no printer config,
or its configured printer-type string resolves without a `ValueError`. -/
def configResolvable (camera_state : Option CameraState) : Bool :=
  match get_printer_config camera_state with
  | none => true
  | some cfg =>
    match resolve_printer_type cfg.printer_type with
    | .ok _ => true
    | .error _ => false

/-- `t.actual if t else 0.0` for an optional temperature entry. -/
def actualOrZero : Option TemperatureReading → JValue
  | some t => t.actual
  | none => .num 0

/-- `t.target if t else 0.0` for an optional temperature entry. -/
def targetOrZero : Option TemperatureReading → JValue
  | some t => t.target
  | none => .num 0

/-- A printer config whose `printer_type` string is not a registered
`PrinterType` value. -/
def cfgBogus : PrinterConfig :=
  { printer_type := some "bogus", base_url := some "http://printer.local",
    api_key := some "KEY", name := some "printer" }

/-- A camera whose printer config carries the unregistered type string. -/
def csBogus : CameraState := { printer_config := some cfgBogus }

/-- A well-formed PrusaLink printer config. -/
def cfgPrusa : PrinterConfig :=
  { printer_type := some "prusalink_py", base_url := some "http://printer.local",
    api_key := some "KEY", name := some "printer" }

/-- A camera with a well-formed PrusaLink printer config. -/
def csPrusa : CameraState := { printer_config := some cfgPrusa }

/-- A client construction oracle whose clients fail every job-info fetch. -/
def trivialClientOf : ClientClass → Option String → Option String → Client :=
  fun _ _ _ =>
    { get_job_info := .error .connectionError,
      cancel_job := .ok (), pause_job := .ok () }

/-- A job-info value whose state is the printing variant. -/
def jobPrinting : JobInfoResponse :=
  { job := .null,
    progress := { completion := .null, printTime := .null, printTimeLeft := .null },
    state := .str "Printing" }

/-- A client construction oracle whose clients report an active print job and
accept both control commands. -/
def printingClientOf : ClientClass → Option String → Option String → Client :=
  fun _ _ _ =>
    { get_job_info := .ok jobPrinting,
      cancel_job := .ok (), pause_job := .ok () }

/-- An environment whose printer query fails with HTTP 500 (all other calls
fail at the network level). -/
def envTempFail : PrusaEnv :=
  { get_status := .error .connectionError, get_job := .error .connectionError,
    get_printer := .ok { status_code := 500, body := none },
    stop_print := .error .connectionError, pause_print := .error .connectionError }

/-- An environment whose printer query succeeds with an empty payload while
the status query (hence the job-info fetch) fails at the network level. -/
def envJobFail : PrusaEnv :=
  { get_status := .error .connectionError, get_job := .error .connectionError,
    get_printer := .ok { status_code := 200, body := some (.obj []) },
    stop_print := .error .connectionError, pause_print := .error .connectionError }

/-- An environment whose printer query reports only a chamber temperature
(neither `tool0` nor `bed`). -/
def envChamber : PrusaEnv :=
  { get_status := .error .connectionError, get_job := .error .connectionError,
    get_printer := .ok { status_code := 200, body := some (.obj
      [("temperature", .obj
        [("chamber", .obj [("actual", .num 50), ("target", .num 60)])])]) },
    stop_print := .error .connectionError, pause_print := .error .connectionError }

/-- The environment of the spec's merge example: the `/status` payload with
progress and printer state, the `/job` payload with the file details. -/
def envMerge : PrusaEnv :=
  { get_status := .ok { status_code := 200, body := some (.obj
      [("job", .obj [("progress", .num 0.42), ("time_printing", .num 100),
                     ("time_remaining", .num 50)]),
       ("printer", .obj [("state", .str "PRINTING")])]) },
    get_job := .ok { status_code := 200, body := some (.obj
      [("job", .obj [("file", .obj [("name", .str "x.gcode")])])]) },
    get_printer := .error .connectionError,
    stop_print := .error .connectionError, pause_print := .error .connectionError }

/-- An environment whose printer query reports HTTP 409 (busy/conflict). -/
def env409 : PrusaEnv :=
  { get_status := .error .connectionError, get_job := .error .connectionError,
    get_printer := .ok { status_code := 409, body := none },
    stop_print := .error .connectionError, pause_print := .error .connectionError }

/-- An environment whose printer query reports HTTP 304 — a non-success,
non-409 status below 400 — with a well-formed temperature payload. -/
def env304 : PrusaEnv :=
  { get_status := .error .connectionError, get_job := .error .connectionError,
    get_printer := .ok { status_code := 304, body := some (.obj
      [("temperature", .obj
        [("tool0", .obj [("actual", .num 21), ("target", .num 22)])])]) },
    stop_print := .error .connectionError, pause_print := .error .connectionError }

/-- An environment whose successful printer query carries temperature data of
the wrong shape: the `tool0` entry is a bare number, not a dict. -/
def envShapeDrop : PrusaEnv :=
  { get_status := .error .connectionError, get_job := .error .connectionError,
    get_printer := .ok { status_code := 200, body := some (.obj
      [("temperature", .obj [("tool0", .num 215)])]) },
    stop_print := .error .connectionError, pause_print := .error .connectionError }

theorem except_bind_ok {α β : Type} (a : α) (f : α → Except PyErr β) :
    ((Except.ok a : Except PyErr α) >>= f) = f a := rfl

theorem except_bind_error {α β : Type} (e : PyErr) (f : α → Except PyErr β) :
    ((Except.error e : Except PyErr α) >>= f) = .error e := rfl

theorem except_pure {α : Type} (a : α) :
    (pure a : Except PyErr α) = .ok a := rfl

/-- Claim C7: on the spec's merge example — status payload
`job{progress 0.42, time_printing 100, time_remaining 50}` and
`printer{state PRINTING}`, job payload `job{file{name x.gcode}}` —
`get_job_info` returns the merged `JobInfoResponse` with the file details as
`job`, the progress triple as `progress`, and state `PRINTING`. -/
theorem claim_C7 :
    PrusaLinkPyClient.get_job_info envMerge = .ok
      { job := .obj [("file", .obj [("name", .str "x.gcode")])],
        progress := { completion := .num 0.42, printTime := .num 100,
                      printTimeLeft := .num 50 },
        state := .str "PRINTING" } := rfl

/-- Claim C1, counterexample: when the printer (temperature) query reports
HTTP 500, `get_printer_state` raises the `HTTPError` instead of returning a
`PrinterState`, so it is not true that it never raises. -/
theorem claim_C1_counterexample :
    PrusaLinkPyClient.get_printer_state envTempFail = .error (.httpError 500) := rfl

/-- Claim C2, counterexample: with a printer config whose `printer_type`
string is unregistered, the enum lookup raises `ValueError` outside the
`try`, so `suspend_print_job` raises instead of returning a boolean. -/
theorem claim_C2_counterexample :
    (suspend_print_job (some csBogus) trivialClientOf .CANCEL_PRINT).2
      = .error .valueError := rfl

/-- Claim C3, counterexample: with a printer config whose `printer_type`
string is unregistered, `start_printer_state_polling` raises `ValueError`
instead of logging and returning early. -/
theorem claim_C3_counterexample :
    start_printer_state_polling (some csBogus) 500 = .error .valueError := rfl

/-- Claim C4, counterexample: a non-empty temperature mapping containing only
a `chamber` entry still yields the all-zero result, so all-zero does not imply
that `get_printer_temperatures` returned an empty mapping. -/
theorem claim_C4_counterexample :
    PrusaLinkPyClient.get_printer_temperatures envChamber
      = .ok [("chamber", { actual := .num 50, target := .num 60 })] ∧
    [("chamber", ({ actual := .num 50, target := .num 60 } : TemperatureReading))]
      ≠ ([] : List (String × TemperatureReading)) ∧
    PrusaLinkPyClient.nozzle_and_bed_temps envChamber
      = .ok { nozzle_actual := .num 0, nozzle_target := .num 0,
              bed_actual := .num 0, bed_target := .num 0 } :=
  ⟨rfl, by simp, rfl⟩

/-- Claim C9, counterexample: HTTP 304 is a non-success status other than 409,
yet `get_printer_temperatures` returns the decoded readings instead of failing
with a transport error, because `raise_for_status` only raises for 4xx/5xx. -/
theorem claim_C9_counterexample :
    env304.get_printer
      = .ok { status_code := 304, body := some (.obj
          [("temperature", .obj
            [("tool0", .obj [("actual", .num 21), ("target", .num 22)])])]) } ∧
    PrusaLinkPyClient.get_printer_temperatures env304
      = .ok [("tool0", { actual := .num 21, target := .num 22 })] :=
  ⟨rfl, rfl⟩

/-- Claim C1, amended: whenever the temperature fetch succeeds,
`get_printer_state` returns (does not raise) a `PrinterState` whose
`jobInfoResponse` is absent exactly when `get_job_info` raised, and whose
`temperatureReading` is always present, built from the `tool0` and `bed`
entries of the fetched mapping; an exception of `get_printer_temperatures`
itself propagates. -/
theorem claim_C1_amended (env : PrusaEnv) (temps : List (String × TemperatureReading))
    (h : PrusaLinkPyClient.get_printer_temperatures env = .ok temps) :
    ∃ st, PrusaLinkPyClient.get_printer_state env = .ok st ∧
      (st.jobInfoResponse = none ↔ ∃ e, PrusaLinkPyClient.get_job_info env = .error e) ∧
      st.temperatureReading.nozzle_actual = (alookup temps "tool0").map TemperatureReading.actual ∧
      st.temperatureReading.nozzle_target = (alookup temps "tool0").map TemperatureReading.target ∧
      st.temperatureReading.bed_actual = (alookup temps "bed").map TemperatureReading.actual ∧
      st.temperatureReading.bed_target = (alookup temps "bed").map TemperatureReading.target := by
  have hmain : PrusaLinkPyClient.get_printer_state env = .ok
      { jobInfoResponse :=
          match PrusaLinkPyClient.get_job_info env with
          | .ok j => some j
          | .error _ => none,
        temperatureReading :=
          { nozzle_actual := match alookup temps "tool0" with | some t => some t.actual | none => none,
            nozzle_target := match alookup temps "tool0" with | some t => some t.target | none => none,
            bed_actual := match alookup temps "bed" with | some t => some t.actual | none => none,
            bed_target := match alookup temps "bed" with | some t => some t.target | none => none } } := by
    simp only [PrusaLinkPyClient.get_printer_state, h, except_bind_ok, except_pure]
  refine ⟨_, hmain, ?_, ?_, ?_, ?_, ?_⟩
  · cases hj : PrusaLinkPyClient.get_job_info env with
    | ok j => simp [hj]
    | error e => simp [hj]
  · cases h0 : alookup temps "tool0" <;> simp [h0]
  · cases h0 : alookup temps "tool0" <;> simp [h0]
  · cases h0 : alookup temps "bed" <;> simp [h0]
  · cases h0 : alookup temps "bed" <;> simp [h0]

theorem claim_C1_witness :
    PrusaLinkPyClient.get_printer_temperatures envJobFail = .ok [] ∧
    (∃ st, PrusaLinkPyClient.get_printer_state envJobFail = .ok st ∧
      (st.jobInfoResponse = none ↔ ∃ e, PrusaLinkPyClient.get_job_info envJobFail = .error e) ∧
      st.temperatureReading.nozzle_actual
        = (alookup ([] : List (String × TemperatureReading)) "tool0").map TemperatureReading.actual ∧
      st.temperatureReading.nozzle_target
        = (alookup ([] : List (String × TemperatureReading)) "tool0").map TemperatureReading.target ∧
      st.temperatureReading.bed_actual
        = (alookup ([] : List (String × TemperatureReading)) "bed").map TemperatureReading.actual ∧
      st.temperatureReading.bed_target
        = (alookup ([] : List (String × TemperatureReading)) "bed").map TemperatureReading.target) :=
  ⟨rfl, claim_C1_amended envJobFail [] rfl⟩

/-- Claim C2, amended: `suspend_print_job` returns a boolean whenever the
camera's config is absent or its printer-type string resolves: exceptions
during the job-info fetch or the pause/cancel action are caught and become
`False`, and a missing config or missing factory entry yields `False` without
raising. An unregistered printer-type string, however, makes the enum lookup
raise `ValueError` outside the `try`, so such a config-resolution exception is
not converted to `False`. -/
theorem claim_C2_amended (camera_state : Option CameraState)
    (clientOf : ClientClass → Option String → Option String → Client)
    (action : AlertAction)
    (h : configResolvable camera_state = true) :
    (∃ b, (suspend_print_job camera_state clientOf action).2 = .ok b) ∧
    (get_printer_config camera_state = none →
      suspend_print_job camera_state clientOf action = ([], .ok false)) ∧
    (∀ cfg pt, get_printer_config camera_state = some cfg →
      resolve_printer_type cfg.printer_type = .ok pt →
      (CLIENT_FACTORY pt = none →
        suspend_print_job camera_state clientOf action = ([], .ok false)) ∧
      (∀ cls, CLIENT_FACTORY pt = some cls →
        (∀ e, (clientOf cls cfg.base_url cfg.api_key).get_job_info = .error e →
          suspend_print_job camera_state clientOf action = ([], .ok false)) ∧
        (∀ ji, (clientOf cls cfg.base_url cfg.api_key).get_job_info = .ok ji →
          isPrintingState ji.state = true →
          (action = .CANCEL_PRINT →
            ∀ e, (clientOf cls cfg.base_url cfg.api_key).cancel_job = .error e →
              suspend_print_job camera_state clientOf action = ([.cancel], .ok false)) ∧
          (action = .PAUSE_PRINT →
            ∀ e, (clientOf cls cfg.base_url cfg.api_key).pause_job = .error e →
              suspend_print_job camera_state clientOf action = ([.pause], .ok false))))) := by
  refine ⟨?_, ?_, ?_⟩
  · cases hc : get_printer_config camera_state with
    | none => exact ⟨false, by simp [suspend_print_job, hc]⟩
    | some cfg =>
      cases hr : resolve_printer_type cfg.printer_type with
      | error e => simp [configResolvable, hc, hr] at h
      | ok pt =>
        cases hf : CLIENT_FACTORY pt with
        | none => exact ⟨false, by simp [suspend_print_job, hc, hr, hf]⟩
        | some cls =>
          cases hj : (clientOf cls cfg.base_url cfg.api_key).get_job_info with
          | error e => exact ⟨false, by simp [suspend_print_job, hc, hr, hf, hj]⟩
          | ok ji =>
            cases hps : isPrintingState ji.state with
            | false => exact ⟨true, by simp [suspend_print_job, hc, hr, hf, hj, hps]⟩
            | true =>
              cases action with
              | CANCEL_PRINT =>
                cases ha : (clientOf cls cfg.base_url cfg.api_key).cancel_job with
                | ok u => exact ⟨true, by simp [suspend_print_job, hc, hr, hf, hj, hps, ha]⟩
                | error e => exact ⟨false, by simp [suspend_print_job, hc, hr, hf, hj, hps, ha]⟩
              | PAUSE_PRINT =>
                cases ha : (clientOf cls cfg.base_url cfg.api_key).pause_job with
                | ok u => exact ⟨true, by simp [suspend_print_job, hc, hr, hf, hj, hps, ha]⟩
                | error e => exact ⟨false, by simp [suspend_print_job, hc, hr, hf, hj, hps, ha]⟩
              | DISMISS => exact ⟨true, by simp [suspend_print_job, hc, hr, hf, hj, hps]⟩
  · intro hc
    simp [suspend_print_job, hc]
  · intro cfg pt hc hr
    refine ⟨?_, ?_⟩
    · intro hf
      simp [suspend_print_job, hc, hr, hf]
    · intro cls hf
      refine ⟨?_, ?_⟩
      · intro e hj
        simp [suspend_print_job, hc, hr, hf, hj]
      · intro ji hj hps
        refine ⟨?_, ?_⟩
        · intro ha e hcancel
          subst ha
          simp [suspend_print_job, hc, hr, hf, hj, hps, hcancel]
        · intro ha e hpause
          subst ha
          simp [suspend_print_job, hc, hr, hf, hj, hps, hpause]

theorem claim_C2_witness :
    configResolvable (some csPrusa) = true ∧
    ((∃ b, (suspend_print_job (some csPrusa) trivialClientOf .CANCEL_PRINT).2 = .ok b) ∧
     (get_printer_config (some csPrusa) = none →
       suspend_print_job (some csPrusa) trivialClientOf .CANCEL_PRINT = ([], .ok false)) ∧
     (∀ cfg pt, get_printer_config (some csPrusa) = some cfg →
       resolve_printer_type cfg.printer_type = .ok pt →
       (CLIENT_FACTORY pt = none →
         suspend_print_job (some csPrusa) trivialClientOf .CANCEL_PRINT = ([], .ok false)) ∧
       (∀ cls, CLIENT_FACTORY pt = some cls →
         (∀ e, (trivialClientOf cls cfg.base_url cfg.api_key).get_job_info = .error e →
           suspend_print_job (some csPrusa) trivialClientOf .CANCEL_PRINT = ([], .ok false)) ∧
         (∀ ji, (trivialClientOf cls cfg.base_url cfg.api_key).get_job_info = .ok ji →
           isPrintingState ji.state = true →
           (AlertAction.CANCEL_PRINT = .CANCEL_PRINT →
             ∀ e, (trivialClientOf cls cfg.base_url cfg.api_key).cancel_job = .error e →
               suspend_print_job (some csPrusa) trivialClientOf .CANCEL_PRINT
                 = ([.cancel], .ok false)) ∧
           (AlertAction.CANCEL_PRINT = .PAUSE_PRINT →
             ∀ e, (trivialClientOf cls cfg.base_url cfg.api_key).pause_job = .error e →
               suspend_print_job (some csPrusa) trivialClientOf .CANCEL_PRINT
                 = ([.pause], .ok false)))))) :=
  ⟨rfl, claim_C2_amended (some csPrusa) trivialClientOf .CANCEL_PRINT rfl⟩

/-- Claim C3, amended: `start_printer_state_polling` logs and returns early
without creating a task when the camera has no printer config; when the
configured type resolves it always finds a factory entry and starts the task;
but an unregistered printer-type string makes the enum lookup raise
`ValueError`, which propagates instead of an early return (the
unsupported-type guard is unreachable because every registered type has a
factory entry). -/
theorem claim_C3_amended (camera_state : Option CameraState) (pollingRateMs : ℚ) :
    (get_printer_config camera_state = none →
      start_printer_state_polling camera_state pollingRateMs = .ok .noConfig) ∧
    (∀ cfg pt, get_printer_config camera_state = some cfg →
      resolve_printer_type cfg.printer_type = .ok pt →
      ∃ cls, CLIENT_FACTORY pt = some cls ∧
        start_printer_state_polling camera_state pollingRateMs
          = .ok (.started (pollingRateMs / 1000) cls)) ∧
    (∀ cfg e, get_printer_config camera_state = some cfg →
      resolve_printer_type cfg.printer_type = .error e →
      start_printer_state_polling camera_state pollingRateMs = .error e) := by
  refine ⟨?_, ?_, ?_⟩
  · intro h
    simp [start_printer_state_polling, h]
  · intro cfg pt hc hr
    cases pt with
    | OCTOPRINT =>
      exact ⟨.octoPrintClient, rfl, by simp [start_printer_state_polling, hc, hr, CLIENT_FACTORY]⟩
    | PRUSALINKPY =>
      exact ⟨.prusaLinkPyClient, rfl, by simp [start_printer_state_polling, hc, hr, CLIENT_FACTORY]⟩
  · intro cfg e hc hr
    simp [start_printer_state_polling, hc, hr]

theorem claim_C3_witness :
    (get_printer_config (some csBogus) = some cfgBogus ∧
     resolve_printer_type cfgBogus.printer_type = .error .valueError ∧
     start_printer_state_polling (some csBogus) 500 = .error .valueError) ∧
    (get_printer_config (some csPrusa) = some cfgPrusa ∧
     resolve_printer_type cfgPrusa.printer_type = .ok .PRUSALINKPY ∧
     ∃ cls, CLIENT_FACTORY .PRUSALINKPY = some cls ∧
       start_printer_state_polling (some csPrusa) 500 = .ok (.started (500 / 1000) cls)) :=
  ⟨⟨rfl, rfl, (claim_C3_amended (some csBogus) 500).2.2 cfgBogus .valueError rfl rfl⟩,
   ⟨rfl, rfl, (claim_C3_amended (some csPrusa) 500).2.1 cfgPrusa .PRUSALINKPY rfl rfl⟩⟩

/-- Claim C4, amended: `nozzle_and_bed_temps` returns the all-zero mapping
when `get_printer_temperatures` returns an empty mapping (if, not iff); when
the mapping is non-empty it takes the `tool0` and `bed` entries, defaulting
each missing entry's values to `0.0` — so the all-zero result can also arise
from a non-empty mapping lacking both entries. -/
theorem claim_C4_amended (env : PrusaEnv) (temps : List (String × TemperatureReading))
    (h : PrusaLinkPyClient.get_printer_temperatures env = .ok temps) :
    (temps = [] → PrusaLinkPyClient.nozzle_and_bed_temps env
      = .ok { nozzle_actual := .num 0, nozzle_target := .num 0,
              bed_actual := .num 0, bed_target := .num 0 }) ∧
    (temps ≠ [] → PrusaLinkPyClient.nozzle_and_bed_temps env
      = .ok { nozzle_actual := actualOrZero (alookup temps "tool0"),
              nozzle_target := targetOrZero (alookup temps "tool0"),
              bed_actual := actualOrZero (alookup temps "bed"),
              bed_target := targetOrZero (alookup temps "bed") }) := by
  constructor
  · intro he
    subst he
    simp [PrusaLinkPyClient.nozzle_and_bed_temps, h, except_bind_ok, except_pure]
  · intro hne
    cases temps with
    | nil => exact absurd rfl hne
    | cons kv rest =>
      simp [PrusaLinkPyClient.nozzle_and_bed_temps, h, except_bind_ok, except_pure,
            actualOrZero, targetOrZero]

theorem claim_C4_witness :
    PrusaLinkPyClient.get_printer_temperatures envShapeDrop = .ok [] ∧
    (([] : List (String × TemperatureReading)) = [] →
      PrusaLinkPyClient.nozzle_and_bed_temps envShapeDrop
        = .ok { nozzle_actual := .num 0, nozzle_target := .num 0,
                bed_actual := .num 0, bed_target := .num 0 }) ∧
    (([] : List (String × TemperatureReading)) ≠ [] →
      PrusaLinkPyClient.nozzle_and_bed_temps envShapeDrop
        = .ok { nozzle_actual := actualOrZero (alookup [] "tool0"),
                nozzle_target := targetOrZero (alookup [] "tool0"),
                bed_actual := actualOrZero (alookup [] "bed"),
                bed_target := targetOrZero (alookup [] "bed") }) :=
  ⟨rfl, claim_C4_amended envShapeDrop [] rfl⟩

theorem poll_loop_run_eq (poll : Nat → Except PyErr PrinterState) (N : Nat) :
    ∀ d i, N = i + d →
      poll_printer_state_func (fun j => decide (N ≤ j)) poll (d + 1) i
        = (List.range' i d).map (fun j => cycleEvent (poll j)) := by
  intro d
  induction d with
  | zero =>
    intro i hN
    have hstop : N ≤ i := by omega
    simp [poll_printer_state_func, hstop, List.range']
  | succ d ih =>
    intro i hN
    have hgo : ¬ N ≤ i := by omega
    rw [poll_printer_state_func]
    rw [if_neg (by simpa using hgo)]
    rw [ih (i + 1) (by omega)]
    rw [List.range'_succ, List.map_cons]
    cases poll i <;> simp [cycleEvent]

/-- Claim C5: the polling loop observed with the stop signal first set at the
`N`-th top-of-loop check performs exactly `N` cycles, each producing a push
attempt when the poll succeeds and a skipped (but counted) cycle when the
poll raises — so a poll exception never ends the loop, with `N = 0` no push
occurs, and with a stop signal that is already set no event at all occurs for
any fuel. -/
theorem claim_C5 (poll : Nat → Except PyErr PrinterState) (N : Nat) :
    poll_printer_state_func (fun j => decide (N ≤ j)) poll (N + 1) 0
      = (List.range N).map (fun j => cycleEvent (poll j)) ∧
    ∀ fuel, poll_printer_state_func (fun _ => true) poll fuel 0 = [] := by
  constructor
  · have h := poll_loop_run_eq poll N N 0 (by omega)
    simpa [List.range_eq_range'] using h
  · intro fuel
    cases fuel with
    | zero => rfl
    | succ f => simp [poll_printer_state_func]

/-- Claim C6: the factory lookup yields a constructor for every registered
printer type, a missing (`None` or empty) type string defaults to OctoPrint
for backward compatibility, and an unregistered type string is a failure (the
enum lookup raises `ValueError`). -/
theorem claim_C6 :
    (∀ pt, (CLIENT_FACTORY pt).isSome = true) ∧
    resolve_printer_type none = .ok .OCTOPRINT ∧
    resolve_printer_type (some "") = .ok .OCTOPRINT ∧
    (∀ s, PrinterType.ofValue s = none → s ≠ "" →
      resolve_printer_type (some s) = .error .valueError) := by
  refine ⟨?_, rfl, rfl, ?_⟩
  · intro pt
    cases pt <;> rfl
  · intro s hs hne
    simp [resolve_printer_type, hne, hs]

theorem claim_C6_witness :
    PrinterType.ofValue "bogus" = none ∧ "bogus" ≠ "" ∧
    resolve_printer_type (some "bogus") = .error .valueError :=
  ⟨rfl, by decide, claim_C6.2.2.2 "bogus" rfl (by decide)⟩

/-- Claim C8: when `suspend_print_job` resolves a client and the job-info
fetch succeeds — if the job state is not one of the case-sensitive
printing-state strings, it returns success without issuing any command, for
every action; otherwise it issues cancel for `CANCEL_PRINT`, pause for
`PAUSE_PRINT`, and returns success without issuing a command for any other
action. -/
theorem claim_C8 (camera_state : Option CameraState)
    (clientOf : ClientClass → Option String → Option String → Client)
    (cfg : PrinterConfig) (pt : PrinterType) (cls : ClientClass) (ji : JobInfoResponse)
    (hc : get_printer_config camera_state = some cfg)
    (hr : resolve_printer_type cfg.printer_type = .ok pt)
    (hf : CLIENT_FACTORY pt = some cls)
    (hj : (clientOf cls cfg.base_url cfg.api_key).get_job_info = .ok ji) :
    (isPrintingState ji.state = false →
      ∀ action, suspend_print_job camera_state clientOf action = ([], .ok true)) ∧
    (isPrintingState ji.state = true →
      (suspend_print_job camera_state clientOf .CANCEL_PRINT).1 = [.cancel] ∧
      (suspend_print_job camera_state clientOf .PAUSE_PRINT).1 = [.pause] ∧
      suspend_print_job camera_state clientOf .DISMISS = ([], .ok true)) := by
  constructor
  · intro hp action
    simp [suspend_print_job, hc, hr, hf, hj, hp]
  · intro hp
    refine ⟨?_, ?_, ?_⟩ <;> simp [suspend_print_job, hc, hr, hf, hj, hp]

theorem claim_C8_witness :
    get_printer_config (some csPrusa) = some cfgPrusa ∧
    resolve_printer_type cfgPrusa.printer_type = .ok .PRUSALINKPY ∧
    CLIENT_FACTORY .PRUSALINKPY = some .prusaLinkPyClient ∧
    (printingClientOf .prusaLinkPyClient cfgPrusa.base_url cfgPrusa.api_key).get_job_info
      = .ok jobPrinting ∧
    ((isPrintingState jobPrinting.state = false →
        ∀ action, suspend_print_job (some csPrusa) printingClientOf action = ([], .ok true)) ∧
     (isPrintingState jobPrinting.state = true →
        (suspend_print_job (some csPrusa) printingClientOf .CANCEL_PRINT).1 = [.cancel] ∧
        (suspend_print_job (some csPrusa) printingClientOf .PAUSE_PRINT).1 = [.pause] ∧
        suspend_print_job (some csPrusa) printingClientOf .DISMISS = ([], .ok true))) :=
  ⟨rfl, rfl, rfl, rfl,
   claim_C8 (some csPrusa) printingClientOf cfgPrusa .PRUSALINKPY .prusaLinkPyClient
     jobPrinting rfl rfl rfl rfl⟩

/-- Claim C9, amended: `get_printer_temperatures` returns an empty mapping
(not an error) on HTTP 409, and fails with a transport error on every
client- or server-error status (400–599) other than 409; non-2xx statuses
below 400 (for example 304) are not treated as errors. -/
theorem claim_C9_amended (env : PrusaEnv) (r : HttpResponse)
    (h : env.get_printer = .ok r) :
    (r.status_code = 409 →
      PrusaLinkPyClient.get_printer_temperatures env = .ok []) ∧
    (400 ≤ r.status_code → r.status_code < 600 → r.status_code ≠ 409 →
      PrusaLinkPyClient.get_printer_temperatures env
        = .error (.httpError r.status_code)) := by
  constructor
  · intro h409
    simp [PrusaLinkPyClient.get_printer_temperatures, h, h409, except_bind_ok, except_pure]
  · intro h1 h2 h3
    have hrfs : raise_for_status r = .error (.httpError r.status_code) := by
      simp [raise_for_status, h1, h2]
    simp [PrusaLinkPyClient.get_printer_temperatures, h, h3, hrfs,
          except_bind_ok, except_bind_error]

theorem claim_C9_witness :
    env409.get_printer = .ok { status_code := 409, body := none } ∧
    (((409 : Nat) = 409 →
       PrusaLinkPyClient.get_printer_temperatures env409 = .ok []) ∧
     (400 ≤ (409 : Nat) → (409 : Nat) < 600 → (409 : Nat) ≠ 409 →
       PrusaLinkPyClient.get_printer_temperatures env409
         = .error (.httpError 409))) :=
  ⟨rfl, claim_C9_amended env409 { status_code := 409, body := none } rfl⟩

/-- Claim C10: on a successful (2xx) response whose payload's `temperature`
entry is an object, `get_printer_temperatures` keeps exactly those entries
whose value is a dict containing an `actual` key, converting each to a
`TemperatureReading`, and silently drops every other entry — so the result
can be empty even when the payload holds temperature data. -/
theorem claim_C10 (env : PrusaEnv) (r : HttpResponse)
    (fields tvs : List (String × JValue))
    (h : env.get_printer = .ok r)
    (h2 : 200 ≤ r.status_code) (h3 : r.status_code < 300)
    (hb : r.body = some (.obj fields))
    (ht : alookup fields "temperature" = some (.obj tvs)) :
    PrusaLinkPyClient.get_printer_temperatures env
      = .ok (tvs.filterMap (fun kv =>
          if isDictWithActual kv.2 then
            some (kv.1, TemperatureReading.ofJson kv.2)
          else
            none)) := by
  have h409 : r.status_code ≠ 409 := by omega
  have hrfs : raise_for_status r = .ok () := by
    have hlt : ¬ (400 ≤ r.status_code ∧ r.status_code < 600) := by omega
    simp [raise_for_status, hlt]
  have hjson : r.json = .ok (.obj fields) := by
    simp [HttpResponse.json, hb]
  cases tvs with
  | nil =>
    simp [PrusaLinkPyClient.get_printer_temperatures, h, h409, hrfs, hjson,
          jgetD, ht, jfalsy, except_bind_ok, except_pure]
  | cons kv rest =>
    simp [PrusaLinkPyClient.get_printer_temperatures, h, h409, hrfs, hjson,
          jgetD, ht, jfalsy, except_bind_ok, except_pure]

theorem claim_C10_witness :
    envShapeDrop.get_printer
      = .ok { status_code := 200,
              body := some (.obj [("temperature", .obj [("tool0", .num 215)])]) } ∧
    (200 : Nat) ≤ 200 ∧ (200 : Nat) < 300 ∧
    alookup [("temperature", JValue.obj [("tool0", .num 215)])] "temperature"
      = some (.obj [("tool0", .num 215)]) ∧
    ([("tool0", JValue.num 215)] ≠ ([] : List (String × JValue))) ∧
    PrusaLinkPyClient.get_printer_temperatures envShapeDrop = .ok [] :=
  ⟨rfl, by decide, by decide, rfl, by simp,
   claim_C10 envShapeDrop
     ⟨200, some (.obj [("temperature", .obj [("tool0", .num 215)])])⟩
     [("temperature", .obj [("tool0", .num 215)])] [("tool0", .num 215)]
     rfl (by decide) (by decide) rfl rfl⟩

end PrintGuard
